import Mathlib

/-!
Verification of the game-session and chat client code of the
spring25-ip2 repository, together with a spec-modelled subtraction-game
move validator (the server-side engine is not part of the shipped
sources; only its clients are).
-/

namespace Spec2Proof

/-- Game lifecycle status, as carried in `gameState.state.status`. -/
inductive GameStatus
  | WAITING
  | IN_PROGRESS
  | OVER
deriving DecidableEq, Repr

/-- One committed move of the subtraction game, as stored in `state.moves`. -/
structure GameMove where
  playerID : String
  numObjects : Int
deriving DecidableEq, Repr

/-- The variant-specific payload of a subtraction-game instance:
`player1`/`player2` seats (absent until joined), the remaining pile,
the ordered move list, the winners list and the lifecycle status. -/
structure NimGameState where
  player1 : Option String
  player2 : Option String
  remainingObjects : Int
  moves : List GameMove
  winners : List String
  status : GameStatus
deriving DecidableEq, Repr

/-- A game instance as the client receives it: identity plus state. -/
structure GameInstance where
  gameID : String
  state : NimGameState
deriving DecidableEq, Repr

/-- Embeds `getCurrentPlayer` of `NimGamePage`
(client/src/components/.../nimGamePage): if there are moves, alternate on
the parity of `moves.length`; otherwise the first move goes to `player1`. -/
def getCurrentPlayer (gameState : GameInstance) : Option String :=
  if gameState.state.moves.length > 0 then
    if gameState.state.moves.length % 2 = 0 then gameState.state.player1
    else gameState.state.player2
  else
    gameState.state.player1

/-- Embeds the winner line of `NimGamePage`: rendered only when
`status === 'OVER'`, showing `winners[0]` when the winners list is
non-empty and the text `No winner` otherwise. -/
def renderWinner (gameState : GameInstance) : Option String :=
  if gameState.state.status = GameStatus.OVER then
    some (match gameState.state.winners with
      | [] => "No winner"
      | w :: _ => w)
  else
    none

/-- Rejection kinds of the move validator (spec §4.3). -/
inductive Rejection
  | NotYourTurn
  | GameNotInProgress
  | IllegalMove
deriving DecidableEq, Repr

/-- Modelled from the spec: the seat entitled to move next —
`moves.length % numSeats` indexes into the seat order (§4.3), seat order
fixed as seat-1-first (§4.2). -/
def currentTurnSeat (state : NimGameState) : Option String :=
  if state.moves.length % 2 = 0 then state.player1 else state.player2

/-- Modelled from the spec: the seated player other than the mover, the
one recorded as the winner under the misère rule (§4.3). -/
def otherSeat (state : NimGameState) (playerID : String) : Option String :=
  if state.player1 = some playerID then state.player2 else state.player1

/-- Modelled from the spec: the subtraction-game Move Validator
(§4.3), which is not among the shipped sources. Checks, in order,
`GameNotInProgress` (status ≠ IN_PROGRESS), `NotYourTurn` (acting player
must match the computed turn seat), `IllegalMove` (`numObjects ∉ {1,2,3}`
or `numObjects > remainingObjects`). On success it appends the move and
decrements the pile; if the pile reaches 0 after the decrement the mover
loses: `winners` becomes the other seated player and `status` becomes
OVER. -/
def validate (state : NimGameState) (playerID : String) (numObjects : Int) :
    Except Rejection NimGameState :=
  if state.status ≠ GameStatus.IN_PROGRESS then
    Except.error Rejection.GameNotInProgress
  else if currentTurnSeat state ≠ some playerID then
    Except.error Rejection.NotYourTurn
  else if numObjects < 1 ∨ 3 < numObjects ∨ state.remainingObjects < numObjects then
    Except.error Rejection.IllegalMove
  else
    let r := state.remainingObjects - numObjects
    let applied : NimGameState :=
      { state with
        remainingObjects := r
        moves := state.moves ++ [⟨playerID, numObjects⟩] }
    if r = 0 then
      Except.ok { applied with
        status := GameStatus.OVER
        winners := (otherSeat state playerID).toList }
    else
      Except.ok applied

/-- C1: when a committed move empties the pile, the game ends OVER with
the mover's opponent as the sole winner (misère rule), and the page then
displays that opponent as the winner. -/
theorem misere_last_move_loses (gid : String) (state : NimGameState)
    (p1 p2 mover : String) (n : Int)
    (hst : state.status = GameStatus.IN_PROGRESS)
    (h1 : state.player1 = some p1) (h2 : state.player2 = some p2)
    (hne : p1 ≠ p2)
    (hm : currentTurnSeat state = some mover)
    (hn1 : 1 ≤ n) (hn3 : n ≤ 3)
    (hr : state.remainingObjects = n) :
    ∃ s', validate state mover n = Except.ok s' ∧
      s'.status = GameStatus.OVER ∧
      s'.winners = [if mover = p1 then p2 else p1] ∧
      renderWinner ⟨gid, s'⟩ = some (if mover = p1 then p2 else p1) := by
  have hlegal : ¬ (n < 1 ∨ 3 < n ∨ state.remainingObjects < n) := by
    push_neg
    exact ⟨hn1, hn3, by omega⟩
  have hwin : (otherSeat state mover).toList = [if mover = p1 then p2 else p1] := by
    by_cases hpar : state.moves.length % 2 = 0
    · have hmp : mover = p1 := by
        rw [currentTurnSeat, if_pos hpar, h1] at hm
        exact (Option.some.inj hm).symm
      simp [otherSeat, h1, h2, hmp]
    · have hmp : mover = p2 := by
        rw [currentTurnSeat, if_neg hpar, h2] at hm
        exact (Option.some.inj hm).symm
      simp [otherSeat, h1, h2, hmp, hne, Ne.symm hne]
  have hok : validate state mover n = Except.ok
      { state with
        remainingObjects := 0
        moves := state.moves ++ [⟨mover, n⟩]
        status := GameStatus.OVER
        winners := (otherSeat state mover).toList } := by
    unfold validate
    rw [if_neg (by simp [hst]), if_neg (by simp [hm]), if_neg hlegal]
    simp [hr]
  refine ⟨_, hok, rfl, hwin, ?_⟩
  simp [renderWinner, hwin]

/-- C1 witness: a concrete game (alice vs bob, pile 2, alice to move)
where alice empties the pile and bob is displayed as the winner. -/
theorem misere_last_move_loses_witness :
    ∃ s', validate ⟨some "alice", some "bob", 2, [], [],
        GameStatus.IN_PROGRESS⟩ "alice" 2 = Except.ok s' ∧
      s'.status = GameStatus.OVER ∧
      s'.winners = [if "alice" = "alice" then "bob" else "alice"] ∧
      renderWinner ⟨"g1", s'⟩ =
        some (if "alice" = "alice" then "bob" else "alice") :=
  misere_last_move_loses "g1"
    ⟨some "alice", some "bob", 2, [], [], GameStatus.IN_PROGRESS⟩
    "alice" "bob" "alice" 2 rfl rfl rfl (by decide) rfl
    (by decide) (by decide) rfl

/-- C2: `getCurrentPlayer` computes `seats[moves.length mod 2]` —
player1 on an even number of moves (including zero), player2 on an odd
number — and a move attempt by any player other than the computed turn
seat fails with `NotYourTurn`. -/
theorem turn_alternation (gameState : GameInstance) (p : String)
    (hst : gameState.state.status = GameStatus.IN_PROGRESS)
    (hnot : currentTurnSeat gameState.state ≠ some p) :
    getCurrentPlayer gameState =
      (if gameState.state.moves.length % 2 = 0 then gameState.state.player1
       else gameState.state.player2) ∧
    ∀ n, validate gameState.state p n = Except.error Rejection.NotYourTurn := by
  constructor
  · rw [getCurrentPlayer]
    by_cases h : gameState.state.moves.length > 0
    · rw [if_pos h]
    · have h0 : gameState.state.moves.length = 0 := by omega
      simp [h0]
  · intro n
    rw [validate, if_neg (by simp [hst]), if_pos hnot]

/-- C2 witness: in a fresh game (no moves) the computed current player is
player1 (alice), and any move by bob is rejected with `NotYourTurn`. -/
theorem turn_alternation_witness :
    getCurrentPlayer ⟨"g2", ⟨some "alice", some "bob", 5, [], [],
        GameStatus.IN_PROGRESS⟩⟩ =
      (if (GameInstance.mk "g2" ⟨some "alice", some "bob", 5, [], [],
          GameStatus.IN_PROGRESS⟩).state.moves.length % 2 = 0
       then some "alice" else some "bob") ∧
    ∀ n, validate ⟨some "alice", some "bob", 5, [], [],
        GameStatus.IN_PROGRESS⟩ "bob" n =
      Except.error Rejection.NotYourTurn :=
  turn_alternation ⟨"g2", ⟨some "alice", some "bob", 5, [], [],
    GameStatus.IN_PROGRESS⟩⟩ "bob" rfl (by decide)

/-- The innermost payload of a makeMove emission: the number of objects. -/
structure NimMovePayload where
  numObjects : Int
deriving DecidableEq, Repr

/-- The middle layer of the makeMove payload: acting player, game and move. -/
structure GameMovePayload where
  playerID : String
  gameID : String
  move : NimMovePayload
deriving DecidableEq, Repr

/-- The payload `handleMakeMove` emits on the `makeMove` socket event. -/
structure MakeMovePayload where
  gameID : String
  move : GameMovePayload
deriving DecidableEq, Repr

/-- Embeds the initial move state of `useNimGamePage`:
`useState<number>(1)`. -/
def initialMove : Int := 1

/-- Embeds `handleInputChange` of `useNimGamePage`: the parsed input
value (`none` when `parseInt` yields NaN) replaces the move state only
when it is an integer between 1 and 3; otherwise the state is kept. -/
def handleInputChange (move : Int) (parsedInput : Option Int) : Int :=
  match parsedInput with
  | some numValue => if 1 ≤ numValue ∧ numValue ≤ 3 then numValue else move
  | none => move

/-- The move state after a sequence of input events, starting from the
initial value 1. -/
def moveAfterInputs (inputs : List (Option Int)) : Int :=
  inputs.foldl handleInputChange initialMove

/-- Embeds `handleMakeMove` of `useNimGamePage`: builds the nested
makeMove payload from the game, the current user and the move state. -/
def handleMakeMove (gameState : GameInstance) (username : String)
    (move : Int) : MakeMovePayload :=
  { gameID := gameState.gameID
    move := { playerID := username
              gameID := gameState.gameID
              move := { numObjects := move } } }

/-- C3: after any sequence of input events, the numObjects field of the
payload emitted by `handleMakeMove` is 1, 2 or 3. -/
theorem move_payload_in_range (gameState : GameInstance) (username : String)
    (inputs : List (Option Int)) :
    (handleMakeMove gameState username
        (moveAfterInputs inputs)).move.move.numObjects = 1 ∨
    (handleMakeMove gameState username
        (moveAfterInputs inputs)).move.move.numObjects = 2 ∨
    (handleMakeMove gameState username
        (moveAfterInputs inputs)).move.move.numObjects = 3 := by
  have key : ∀ (l : List (Option Int)) (m : Int),
      (m = 1 ∨ m = 2 ∨ m = 3) →
      (l.foldl handleInputChange m = 1 ∨ l.foldl handleInputChange m = 2 ∨
        l.foldl handleInputChange m = 3) := by
    intro l
    induction l with
    | nil => intro m hm; simpa using hm
    | cons a t ih =>
      intro m hm
      simp only [List.foldl_cons]
      apply ih
      cases a with
      | none => simpa [handleInputChange] using hm
      | some v =>
        by_cases h : 1 ≤ v ∧ v ≤ 3
        · simp only [handleInputChange, if_pos h]
          omega
        · simpa [handleInputChange, h] using hm
  simpa [handleMakeMove, moveAfterInputs] using
    key inputs initialMove (Or.inl rfl)

/-- The observable state of the `useGamePage` hook: the joined game's
snapshot, the joined game id and the error message. -/
structure GamePageState where
  gameState : Option GameInstance
  joinedGameID : Option String
  error : Option String
deriving DecidableEq, Repr

/-- The payload of a `gameError` socket event: the acting player and the
error message. -/
structure GameErrorPayload where
  player : String
  error : String
deriving DecidableEq, Repr

/-- The payload of a `gameUpdate` socket event: the authoritative
snapshot. -/
structure GameUpdatePayload where
  gameState : GameInstance
deriving DecidableEq, Repr

/-- Embeds `handleGameError` of `useGamePage`: sets the error message
only when the payload's player equals the current user's username;
nothing else in the page state is touched. -/
def handleGameError (username : String) (s : GamePageState)
    (gameError : GameErrorPayload) : GamePageState :=
  if gameError.player = username then { s with error := some gameError.error }
  else s

/-- Embeds `handleGameUpdate` of `useGamePage`: unconditionally replaces
the game snapshot with the payload's and clears the error. -/
def handleGameUpdate (s : GamePageState)
    (updatedState : GameUpdatePayload) : GamePageState :=
  { s with gameState := some updatedState.gameState, error := none }

/-- C4: a rejected move never touches the session snapshot — receiving a
gameError payload leaves `gameState` and `joinedGameID` unchanged — and a
move of 4 objects against a pile of 3 is always rejected (with
`IllegalMove` when the game is in progress and it is the mover's turn),
leaving the pile at 3. -/
theorem rejected_move_discarded (username : String) (s : GamePageState)
    (gameError : GameErrorPayload) (state : NimGameState) (p : String) :
    (handleGameError username s gameError).gameState = s.gameState ∧
    (handleGameError username s gameError).joinedGameID = s.joinedGameID ∧
    (state.remainingObjects = 3 → ∃ r, validate state p 4 = Except.error r) ∧
    (state.remainingObjects = 3 → state.status = GameStatus.IN_PROGRESS →
      currentTurnSeat state = some p →
      validate state p 4 = Except.error Rejection.IllegalMove) := by
  refine ⟨?_, ?_, ?_, ?_⟩
  · by_cases h : gameError.player = username <;> simp [handleGameError, h]
  · by_cases h : gameError.player = username <;> simp [handleGameError, h]
  · intro hr
    by_cases hst : state.status = GameStatus.IN_PROGRESS
    · by_cases hturn : currentTurnSeat state = some p
      · exact ⟨Rejection.IllegalMove, by
          rw [validate, if_neg (by simp [hst]), if_neg (by simp [hturn]),
            if_pos (Or.inr (Or.inl (by norm_num)))]⟩
      · exact ⟨Rejection.NotYourTurn, by
          rw [validate, if_neg (by simp [hst]), if_pos hturn]⟩
    · exact ⟨Rejection.GameNotInProgress, by rw [validate, if_pos hst]⟩
  · intro hr hst hturn
    rw [validate, if_neg (by simp [hst]), if_neg (by simp [hturn]),
      if_pos (Or.inr (Or.inl (by norm_num)))]

/-- C4 witness: at a concrete page state the snapshot survives a
gameError, and a concrete move of 4 against a pile of 3 is rejected as
`IllegalMove`. -/
theorem rejected_move_discarded_witness :
    (handleGameError "alice" ⟨none, none, none⟩
        ⟨"alice", "Invalid move"⟩).gameState =
      (GamePageState.mk none none none).gameState ∧
    validate ⟨some "alice", some "bob", 3, [], [],
        GameStatus.IN_PROGRESS⟩ "alice" 4 =
      Except.error Rejection.IllegalMove :=
  ⟨(rejected_move_discarded "alice" ⟨none, none, none⟩
      ⟨"alice", "Invalid move"⟩
      ⟨some "alice", some "bob", 3, [], [], GameStatus.IN_PROGRESS⟩
      "alice").1,
   (rejected_move_discarded "alice" ⟨none, none, none⟩
      ⟨"alice", "Invalid move"⟩
      ⟨some "alice", some "bob", 3, [], [], GameStatus.IN_PROGRESS⟩
      "alice").2.2.2 rfl rfl (by decide)⟩

/-- C5: a gameError is surfaced only to the acting player — when the
payload's player is the current user the error message is set (and
nothing else changes), and for every other user the state is left
entirely unchanged. -/
theorem error_scoped_to_actor (username : String) (s : GamePageState)
    (gameError : GameErrorPayload) :
    (gameError.player = username →
      handleGameError username s gameError =
        { s with error := some gameError.error }) ∧
    (gameError.player ≠ username →
      handleGameError username s gameError = s) := by
  constructor
  · intro h
    rw [handleGameError, if_pos h]
  · intro h
    rw [handleGameError, if_neg h]

/-- C5 witness: the acting player alice sees the error message, and a
bystander carol's state is untouched by the same payload. -/
theorem error_scoped_to_actor_witness :
    handleGameError "alice" ⟨none, none, none⟩ ⟨"alice", "Not your turn"⟩ =
      { (GamePageState.mk none none none) with
        error := some "Not your turn" } ∧
    handleGameError "carol" ⟨none, none, none⟩ ⟨"alice", "Not your turn"⟩ =
      ⟨none, none, none⟩ :=
  ⟨(error_scoped_to_actor "alice" ⟨none, none, none⟩
      ⟨"alice", "Not your turn"⟩).1 rfl,
   (error_scoped_to_actor "carol" ⟨none, none, none⟩
      ⟨"alice", "Not your turn"⟩).2 (by decide)⟩

/-- The externally visible effects of `handleLeaveGame`: the REST
leaveGame request, the leaveGame socket emission, and the navigation back
to the games list. -/
inductive LeaveEffect
  | leaveRequest (gameID : String) (username : String)
  | emitLeaveGame (gameID : String)
  | navigateGames
deriving DecidableEq, Repr

/-- Embeds `handleLeaveGame` of `useGamePage`: only when a game id is
joined, its snapshot is present and its status is not OVER does it issue
the leaveGame request and emit the leaveGame socket event; in every case
it navigates back to the games list. -/
def handleLeaveGame (username : String) (s : GamePageState) :
    List LeaveEffect :=
  match s.joinedGameID, s.gameState with
  | some gid, some g =>
      if g.state.status ≠ GameStatus.OVER then
        [LeaveEffect.leaveRequest gid username,
         LeaveEffect.emitLeaveGame gid,
         LeaveEffect.navigateGames]
      else
        [LeaveEffect.navigateGames]
  | _, _ => [LeaveEffect.navigateGames]

/-- C6: leaving a joined game whose status is OVER only navigates away —
no leaveGame request and no leaveGame socket event — while leaving a
joined game in any other status performs the leave request and the
socket emission before navigating. -/
theorem leave_noop_when_over (username : String) (s : GamePageState)
    (gid : String) (g : GameInstance)
    (hj : s.joinedGameID = some gid) (hg : s.gameState = some g) :
    (g.state.status = GameStatus.OVER →
      handleLeaveGame username s = [LeaveEffect.navigateGames]) ∧
    (g.state.status ≠ GameStatus.OVER →
      handleLeaveGame username s =
        [LeaveEffect.leaveRequest gid username,
         LeaveEffect.emitLeaveGame gid,
         LeaveEffect.navigateGames]) := by
  constructor
  · intro h
    simp [handleLeaveGame, hj, hg, h]
  · intro h
    simp [handleLeaveGame, hj, hg, h]

/-- C6 witness: leaving a finished game only navigates, and leaving an
in-progress game issues the request and the socket event first. -/
theorem leave_noop_when_over_witness :
    handleLeaveGame "alice"
      ⟨some ⟨"g6", ⟨some "alice", some "bob", 0, [], ["bob"],
          GameStatus.OVER⟩⟩, some "g6", none⟩ =
      [LeaveEffect.navigateGames] ∧
    handleLeaveGame "alice"
      ⟨some ⟨"g6", ⟨some "alice", some "bob", 4, [], [],
          GameStatus.IN_PROGRESS⟩⟩, some "g6", none⟩ =
      [LeaveEffect.leaveRequest "g6" "alice",
       LeaveEffect.emitLeaveGame "g6",
       LeaveEffect.navigateGames] :=
  ⟨(leave_noop_when_over "alice"
      ⟨some ⟨"g6", ⟨some "alice", some "bob", 0, [], ["bob"],
          GameStatus.OVER⟩⟩, some "g6", none⟩
      "g6" ⟨"g6", ⟨some "alice", some "bob", 0, [], ["bob"],
          GameStatus.OVER⟩⟩ rfl rfl).1 rfl,
   (leave_noop_when_over "alice"
      ⟨some ⟨"g6", ⟨some "alice", some "bob", 4, [], [],
          GameStatus.IN_PROGRESS⟩⟩, some "g6", none⟩
      "g6" ⟨"g6", ⟨some "alice", some "bob", 4, [], [],
          GameStatus.IN_PROGRESS⟩⟩ rfl rfl).2 (by decide)⟩

/-- The rendered move controls of `NimGamePage`: whether the move input
section appears and whether the submit button is disabled. -/
structure NimGameView where
  showMoveInput : Bool
  submitDisabled : Bool
deriving DecidableEq, Repr

/-- Embeds the move section of `NimGamePage`: the input and submit
button render only when `status === 'IN_PROGRESS'`, and the submit
button is disabled when the computed current player is not the current
user. -/
def renderMoveControls (username : String) (gameState : GameInstance) :
    NimGameView :=
  { showMoveInput := decide (gameState.state.status = GameStatus.IN_PROGRESS)
    submitDisabled := ! decide (getCurrentPlayer gameState = some username) }

/-- C7: the move input renders exactly when the game is IN_PROGRESS, the
submit button is disabled exactly when it is not the user's turn, and a
move in any other status is rejected with `GameNotInProgress`. -/
theorem moves_gated_by_status (username : String) (gameState : GameInstance) :
    ((renderMoveControls username gameState).showMoveInput = true ↔
      gameState.state.status = GameStatus.IN_PROGRESS) ∧
    ((renderMoveControls username gameState).submitDisabled = true ↔
      getCurrentPlayer gameState ≠ some username) ∧
    (∀ p n, gameState.state.status ≠ GameStatus.IN_PROGRESS →
      validate gameState.state p n =
        Except.error Rejection.GameNotInProgress) := by
  refine ⟨?_, ?_, ?_⟩
  · simp [renderMoveControls]
  · simp [renderMoveControls]
  · intro p n h
    rw [validate, if_pos h]

/-- C7 witness: in a concrete WAITING game a move attempt is rejected
with `GameNotInProgress`. -/
theorem moves_gated_by_status_witness :
    validate ⟨some "alice", none, 5, [], [], GameStatus.WAITING⟩ "alice" 2 =
      Except.error Rejection.GameNotInProgress :=
  (moves_gated_by_status "alice"
    ⟨"g7", ⟨some "alice", none, 5, [], [], GameStatus.WAITING⟩⟩).2.2
    "alice" 2 (by decide)

/-- C8: `handleGameUpdate` installs exactly the broadcast snapshot and
clears the error, independent of the prior client state: any two
subscribers receiving the same gameUpdate payload end with the same
snapshot and the same (cleared) error. -/
theorem broadcast_convergence (s1 s2 : GamePageState)
    (updatedState : GameUpdatePayload) :
    (handleGameUpdate s1 updatedState).gameState =
      some updatedState.gameState ∧
    (handleGameUpdate s1 updatedState).error = none ∧
    (handleGameUpdate s1 updatedState).gameState =
      (handleGameUpdate s2 updatedState).gameState ∧
    (handleGameUpdate s1 updatedState).error =
      (handleGameUpdate s2 updatedState).error :=
  ⟨rfl, rfl, rfl, rfl⟩

/-- A chat document as the client sees it: the optional database id and
the participant usernames. -/
structure Chat where
  _id : Option String
  participants : List String
deriving DecidableEq, Repr

/-- Embeds the `created` branch of `handleChatUpdate` in
`useDirectMessage`: the incoming chat is appended unless some chat with
the same `_id` is already in the list, in which case the list is
returned unchanged. -/
def handleChatUpdateCreated (prevChats : List Chat) (chat : Chat) :
    List Chat :=
  if prevChats.any (fun existingChat => existingChat._id == chat._id) then
    prevChats
  else
    prevChats ++ [chat]

/-- C9: handling a `created` chatUpdate is idempotent — a chat already
present (by `_id`) leaves the list unchanged, an absent chat is appended
exactly once, and delivering the same update twice equals delivering it
once. -/
theorem created_update_idempotent (prevChats : List Chat) (chat : Chat) :
    (prevChats.any (fun c => c._id == chat._id) = true →
      handleChatUpdateCreated prevChats chat = prevChats) ∧
    (prevChats.any (fun c => c._id == chat._id) = false →
      handleChatUpdateCreated prevChats chat = prevChats ++ [chat]) ∧
    handleChatUpdateCreated (handleChatUpdateCreated prevChats chat) chat =
      handleChatUpdateCreated prevChats chat := by
  by_cases h : prevChats.any (fun c => c._id == chat._id) = true
  · refine ⟨fun _ => ?_, fun hf => ?_, ?_⟩
    · rw [handleChatUpdateCreated, if_pos h]
    · rw [h] at hf
      cases hf
    · simp only [handleChatUpdateCreated, h, if_pos]
  · have hf : prevChats.any (fun c => c._id == chat._id) = false := by
      simpa using h
    refine ⟨fun ht => ?_, fun _ => ?_, ?_⟩
    · rw [ht] at hf
      cases hf
    · rw [handleChatUpdateCreated, if_neg (by simp [hf])]
    · simp only [handleChatUpdateCreated, hf]
      simp [List.any_append]

/-- C9 witness: delivering a concrete `created` update to the empty list
appends the chat once, and delivering it a second time changes
nothing. -/
theorem created_update_idempotent_witness :
    handleChatUpdateCreated [] ⟨some "c1", ["alice", "bob"]⟩ =
      [] ++ [⟨some "c1", ["alice", "bob"]⟩] ∧
    handleChatUpdateCreated
        (handleChatUpdateCreated [] ⟨some "c1", ["alice", "bob"]⟩)
        ⟨some "c1", ["alice", "bob"]⟩ =
      handleChatUpdateCreated [] ⟨some "c1", ["alice", "bob"]⟩ :=
  ⟨(created_update_idempotent [] ⟨some "c1", ["alice", "bob"]⟩).2.1 rfl,
   (created_update_idempotent [] ⟨some "c1", ["alice", "bob"]⟩).2.2⟩

/-- The possible outcomes of the underlying `ChatModel.find` query: a
resolved array of chats, a resolved non-array value, or a thrown
error. -/
inductive FindOutcome
  | resolvedArray (chats : List Chat)
  | resolvedOther
  | thrown
deriving DecidableEq, Repr

/-- Embeds `getChatsByParticipants` of the chat service: runs the find
query for the given participants, normalizes a non-array result to the
empty array, and catches any thrown error by resolving to the empty
array. -/
def getChatsByParticipants (find : List String → FindOutcome)
    (p : List String) : List Chat :=
  match find p with
  | FindOutcome.resolvedArray chats => chats
  | FindOutcome.resolvedOther => []
  | FindOutcome.thrown => []

/-- C10: `getChatsByParticipants` always resolves to an array — the
query's array result is passed through, and both a non-array result and
a thrown error resolve to the empty array. -/
theorem chats_by_participants_total (find : List String → FindOutcome)
    (p : List String) :
    (∀ chats, find p = FindOutcome.resolvedArray chats →
      getChatsByParticipants find p = chats) ∧
    (find p = FindOutcome.resolvedOther →
      getChatsByParticipants find p = []) ∧
    (find p = FindOutcome.thrown →
      getChatsByParticipants find p = []) := by
  refine ⟨?_, ?_, ?_⟩
  · intro chats h
    simp [getChatsByParticipants, h]
  · intro h
    simp [getChatsByParticipants, h]
  · intro h
    simp [getChatsByParticipants, h]

/-- C10 witness: against a query that throws, the concrete call resolves
to the empty array. -/
theorem chats_by_participants_total_witness :
    getChatsByParticipants (fun _ => FindOutcome.thrown) ["alice"] = [] :=
  (chats_by_participants_total (fun _ => FindOutcome.thrown) ["alice"]).2.2 rfl

end Spec2Proof
